import Mathlib

/-!
Shallow embedding of the oracle repository's core logic.

Sources embedded here:
- src/oracle_chain/programs/oracle_chain/src/lib.rs
  (`get_pyth_price`, `get_switchboard_price`, `validate_price_consensus`,
  the `PriceData`, `OracleConfig`, `SwitchboardAggregator` data model and
  the `OracleError` codes), and
- src/oracle_manager/src/main.rs (the ingestion loop's cycle body and the
  decimal-text price parse).

Machine integers (i64/u64/i32) are modelled as unbounded `Int`/`Nat`;
none of the claims settled below hinge on two's-complement wraparound,
but the two `as` casts that the on-chain code performs are modelled
explicitly.  Rust's `/` on i64 truncates toward zero, which is `Int.div`;
integer division by zero panics in Rust, so the consensus embedding
returns a distinguished `panicked` outcome instead of silently yielding 0.
-/

namespace OracleChain

/-- PriceSource from lib.rs lines 113-118. -/
inductive PriceSource where
  | Pyth
  | Switchboard
  | Internal
deriving DecidableEq

/-- PriceData from lib.rs lines 104-111 (price: i64, confidence: u64,
expo: i32, timestamp: i64). -/
structure PriceData where
  price : Int
  confidence : Nat
  expo : Int
  timestamp : Int
  source : PriceSource
deriving DecidableEq

/-- OracleError codes from lib.rs lines 145-161. -/
inductive OracleError where
  | PriceUnavailable
  | PriceStale
  | ConfidenceTooHigh
  | NotEnoughSources
  | PriceDeviation
deriving DecidableEq

/-- The policy fields of OracleConfig, lib.rs lines 120-128.  The
`symbol`, `pyth_feed` and `switchboard_aggregator` account-routing fields
are plumbing that no embedded operation reads, so they are omitted. -/
structure OracleConfig where
  max_staleness : Int
  max_confidence : Nat
  max_deviation : Nat
deriving DecidableEq

/-- Rust `u64 as i64` (bit reinterpretation), used at lib.rs line 27. -/
def u64_as_i64 (n : Nat) : Int :=
  if n < 2 ^ 63 then (n : Int) else (n : Int) - 2 ^ 64

/-- Rust `i64 as u64` (bit reinterpretation), used at lib.rs line 33. -/
def i64_as_u64 (x : Int) : Nat :=
  (x % 2 ^ 64).toNat

/-- The fields of the pyth price object read by `get_pyth_price`
(lib.rs lines 15-35): `price`, `conf`, `expo`, `publish_time`.  In the
SDK version this code compiles against, `conf` is compared to an i64 and
later cast with `as u64`, so it is signed here. -/
structure PythPrice where
  price : Int
  conf : Int
  expo : Int
  publish_time : Int
deriving DecidableEq

/-- get_pyth_price, lib.rs lines 11-38.  The account deserialization of
the feed is out of scope; its observable outcome is whether a current
price is available (`none` models `get_current_price()` returning `None`,
line 17).  `now` models `Clock::get()?.unix_timestamp` (line 20).  The
two `require!` gates (staleness, then confidence) fire in source order. -/
def get_pyth_price (feed : Option PythPrice) (now : Int) (cfg : OracleConfig) :
    Except OracleError PriceData :=
  match feed with
  | none => .error .PriceUnavailable
  | some p =>
    if now - p.publish_time ≤ cfg.max_staleness then
      if p.conf ≤ u64_as_i64 cfg.max_confidence then
        .ok ⟨p.price, i64_as_u64 p.conf, p.expo, p.publish_time, .Pyth⟩
      else .error .ConfidenceTooHigh
    else .error .PriceStale

/-- SwitchboardResult, lib.rs lines 136-142. -/
structure SwitchboardResult where
  value : Int
  std_dev : Int
  scale : Int
  updated_at : Int
deriving DecidableEq

/-- SwitchboardAggregator, lib.rs lines 131-134. -/
structure SwitchboardAggregator where
  latest_result : SwitchboardResult
deriving DecidableEq

/-- get_switchboard_price, lib.rs lines 43-60: a single staleness
`require!` and a field repack; no confidence check exists on this path. -/
def get_switchboard_price (agg : SwitchboardAggregator) (now : Int)
    (cfg : OracleConfig) : Except OracleError PriceData :=
  let result := agg.latest_result
  if now - result.updated_at ≤ cfg.max_staleness then
    .ok ⟨result.value, i64_as_u64 result.std_dev, result.scale,
         result.updated_at, .Switchboard⟩
  else .error .PriceStale

/-- Outcome of one `validate_price_consensus` call.  Rust's `Result<i64>`
gives `ok`/`err`; `panicked` models an i64 division by zero, which aborts
the program rather than returning an error. -/
inductive RoundResult where
  | ok (median : Int)
  | err (e : OracleError)
  | panicked
deriving DecidableEq

/-- The sorted price list of lib.rs line 68 (`prices.sort_by` on the
`price` field, a stable sort).  Only the i64 prices are ever read after
the sort, and all sorts of an integer list agree on the resulting list,
so the struct sort is embedded as a sort of the projected price list. -/
def sortedPrices (xs : List Int) : List Int :=
  List.insertionSort (· ≤ ·) xs

/-- The median selection of lib.rs line 69: element `len / 2` of the
sorted prices. -/
def medianOfPrices (xs : List Int) : Int :=
  let sorted := sortedPrices xs
  sorted.getD (sorted.length / 2) 0

/-- The deviation loop of lib.rs lines 71-74: for each price, compute
`((p.price - median).abs() * 10_000) / median` and `require!` it is at
most 100.  Rust i64 division truncates toward zero (`Int.tdiv`) and
panics when `median == 0`. -/
def checkDeviations (median : Int) : List Int → RoundResult
  | [] => .ok median
  | p :: rest =>
    if median = 0 then .panicked
    else if 100 < Int.tdiv ((Int.natAbs (p - median) : Int) * 10000) median then
      .err .PriceDeviation
    else checkDeviations median rest

/-- validate_price_consensus on the projected price list,
lib.rs lines 62-77: require at least 2 sources, sort, take element
`len / 2` as the median, then require every price within 100 bps of it. -/
def consensusPrices (xs : List Int) : RoundResult :=
  if xs.length < 2 then .err .NotEnoughSources
  else checkDeviations (medianOfPrices xs) (sortedPrices xs)

/-- validate_price_consensus, lib.rs lines 62-77.  The function reads
only the `price` field of each `PriceData`, so it factors through the
price projection. -/
def validate_price_consensus (prices : List PriceData) : RoundResult :=
  consensusPrices (prices.map (·.price))

/-- Modelled from the spec (section 4.3 step 2), for comparison against
the code path only: rescale every quote to the minimum `expo` among the
inputs by multiplying mantissas up by the corresponding power of ten.
No such rescaling exists anywhere in lib.rs. -/
def specCommonScale (ps : List PriceData) : List PriceData :=
  let e := ((ps.map (·.expo)).min?).getD 0
  ps.map fun q =>
    { q with
      price := q.price * 10 ^ (q.expo - e).toNat
      confidence := q.confidence * 10 ^ (q.expo - e).toNat
      expo := e }

end OracleChain

namespace OracleManager

/-- Rust `str::parse::<f64>()` (main.rs line 143) applied to the decimal
text of a nonnegative integer within the f64 normal range: IEEE-754
binary64 parsing is correctly rounded, so the value is the input rounded
to the nearest 53-bit significand, ties to even.  `sigShift n` is the
number of low bits that fall below the 53-bit significand of `n`. -/
def sigShift (n : Nat) : Nat :=
  (((List.range 64).find? fun k => decide (n < 2 ^ (k + 53)))).getD 64

/-- The f64 value (as a natural number) produced by parsing the decimal
text of `n` at main.rs line 143: exact below 2^53, otherwise rounded to
the nearest multiple of `2 ^ sigShift n`, ties to even. -/
def f64ofNat (n : Nat) : Nat :=
  if n < 2 ^ 53 then n
  else
    let k := sigShift n
    let q := n / 2 ^ k
    let r := n % 2 ^ k
    if 2 ^ k < 2 * r then (q + 1) * 2 ^ k
    else if 2 * r = 2 ^ k ∧ q % 2 = 1 then (q + 1) * 2 ^ k
    else q * 2 ^ k

/-- The per-iteration I/O outcomes of one pass of the ingestion loop in
main.rs lines 125-177: whether the HTTP GET returned Ok (line 139),
whether the body deserialized as PythLatest (line 140), whether
`json.parsed` is nonempty (the index `[0]` at line 141), whether the
price and conf decimal texts parse (lines 143-144), whether the Redis
connection and SET succeed (lines 155-156) and whether the Postgres
INSERT succeeds (lines 159-170). -/
structure CycleOutcome where
  httpOk : Bool
  jsonOk : Bool
  parsedNonempty : Bool
  priceParses : Bool
  confParses : Bool
  redisConnects : Bool
  redisSetOk : Bool
  dbInsertOk : Bool
deriving DecidableEq

/-- How one pass of the loop body ends: `completed` reaches the final
println and sleeps; `skipped` falls through an `if let` miss (lines
139-140) and sleeps; `panicked` hits an `[0]` index panic or an
`.unwrap()` panic, which terminates the spawned ingestion task. -/
inductive CycleResult where
  | completed
  | skipped
  | panicked
deriving DecidableEq

/-- Control flow of one pass of the ingestion loop body, main.rs lines
125-177, in source order.  A failed HTTP fetch or JSON decode is
silently skipped; every later failure goes through `[0]` indexing or
`.unwrap()` and panics.  (The clock `.unwrap()` at line 145 and the
serde serialization `.unwrap()` at line 156 cannot fail for this payload
type and are not modelled.) -/
def runCycle (c : CycleOutcome) : CycleResult :=
  if ¬ c.httpOk then .skipped
  else if ¬ c.jsonOk then .skipped
  else if ¬ c.parsedNonempty then .panicked
  else if ¬ c.priceParses then .panicked
  else if ¬ c.confParses then .panicked
  else if ¬ c.redisConnects then .panicked
  else if ¬ c.redisSetOk then .panicked
  else if ¬ c.dbInsertOk then .panicked
  else .completed

end OracleManager

namespace OracleChain

/-- When the deviation loop returns `ok`, the value it returns is the
median it was given (lib.rs line 76 returns the line-69 median). -/
theorem checkDeviations_ok_eq {median m : Int} :
    ∀ {l : List Int}, checkDeviations median l = .ok m → m = median := by
  intro l
  induction l with
  | nil =>
    intro h
    simp only [checkDeviations, RoundResult.ok.injEq] at h
    exact h.symm
  | cons p rest ih =>
    intro h
    simp only [checkDeviations] at h
    split at h
    · exact absurd h (by simp)
    · split at h
      · exact absurd h (by simp)
      · exact ih h

/-- If the median is nonzero and some price in the list deviates by more
than 100 bps (with truncating division), the deviation loop of lib.rs
lines 71-74 fails with PriceDeviation. -/
theorem checkDeviations_mem_err {median : Int} (hmed : median ≠ 0) {p : Int} :
    ∀ {l : List Int}, p ∈ l →
      100 < Int.tdiv ((Int.natAbs (p - median) : Int) * 10000) median →
      checkDeviations median l = .err .PriceDeviation := by
  intro l
  induction l with
  | nil =>
    intro hmem _
    exact absurd hmem (List.not_mem_nil p)
  | cons q rest ih =>
    intro hmem hdev
    simp only [checkDeviations]
    rw [if_neg hmed]
    rcases List.mem_cons.mp hmem with heq | htail
    · subst heq
      rw [if_pos hdev]
    · by_cases hq : 100 < Int.tdiv ((Int.natAbs (q - median) : Int) * 10000) median
      · rw [if_pos hq]
      · rw [if_neg hq]
        exact ih htail hdev

/-- C1: on a quote set whose median price is 0 (e.g. two quotes with
price 0), `validate_price_consensus` reaches the division
`((p.price - median).abs() * 10_000) / median` at lib.rs line 72 with
`median == 0`; i64 division by zero panics, so the program aborts
instead of returning an `AllRejected` status (which does not exist in
the code).  This theorem evaluates the embedding at that failing
input. -/
theorem c1_zero_median_panics :
    validate_price_consensus
      [⟨0, 0, 0, 0, .Internal⟩, ⟨0, 0, 0, 0, .Internal⟩] = .panicked := by
  decide

/-- C2 counterexample: the accepted two-quote set with prices 10000 and
10001 yields median 10001, the element at index `len / 2 = 1` of the
sorted prices — the UPPER of the two middle elements.  The claim's
lower-of-two-middle element is 10000, which differs. -/
theorem c2_counterexample :
    validate_price_consensus
      [⟨10000, 0, 0, 0, .Internal⟩, ⟨10001, 0, 0, 0, .Internal⟩] = .ok 10001
    ∧ (sortedPrices [10000, 10001]).getD (2 / 2 - 1) 0 = 10000
    ∧ (10001 : Int) ≠ 10000 := by
  refine ⟨by decide, by decide, by decide⟩

/-- C2 (amended): whenever `validate_price_consensus` accepts a quote
set, the returned median is the element at index `len / 2` of the sorted
price list: the middle element for odd count and the UPPER (not lower)
of the two middle elements for even count.  `l` ranges over every sorted
permutation of the projected price list, so the statement does not
depend on the sorting algorithm used in the embedding. -/
theorem c2_median_upper_middle (ps : List PriceData) (m : Int) (l : List Int)
    (h : validate_price_consensus ps = .ok m)
    (hperm : l.Perm (ps.map (·.price)))
    (hsort : l.Sorted (· ≤ ·)) :
    l.getD (l.length / 2) 0 = m := by
  unfold validate_price_consensus consensusPrices at h
  split at h
  · exact absurd h (by simp)
  · have hm := checkDeviations_ok_eq h
    have hl : l = sortedPrices (ps.map fun q => q.price) := by
      unfold sortedPrices
      exact List.eq_of_perm_of_sorted
        (hperm.trans
          (List.perm_insertionSort (· ≤ ·) (ps.map fun q => q.price)).symm)
        hsort (List.sorted_insertionSort (· ≤ ·) (ps.map fun q => q.price))
    rw [hl, hm]
    rfl

/-- C2 witness: the amended theorem applied to the accepted three-quote
set with prices 10000, 10003, 10005, whose median is 10003. -/
theorem c2_median_upper_middle_witness :
    ([10000, 10003, 10005] : List Int).getD
      (([10000, 10003, 10005] : List Int).length / 2) 0 = 10003 :=
  c2_median_upper_middle
    [⟨10000, 0, 0, 0, .Internal⟩, ⟨10003, 0, 0, 0, .Internal⟩,
     ⟨10005, 0, 0, 0, .Internal⟩]
    10003 [10000, 10003, 10005] (by decide) (List.Perm.refl _) (by decide)

/-- C3 counterexample: for quotes with prices 10000, 10010, 11000 the
median (computed once from the full set) is 10010, and 11000 deviates by
988 bps > 100, so the round ABORTS with the PriceDeviation error —
contradicting the claim that the deviating quote is merely moved to a
rejected-sources list while the round continues.  No rejected-sources
list exists in the code, and the hardcoded bound 100 is used instead of
config.max_deviation (`ValidatePrice` carries no config account). -/
theorem c3_counterexample :
    validate_price_consensus
      [⟨10000, 0, 0, 0, .Internal⟩, ⟨10010, 0, 0, 0, .Internal⟩,
       ⟨11000, 0, 0, 0, .Internal⟩] = .err .PriceDeviation := by
  decide

/-- C3 (amended): the median is computed once, upfront, from the full
quote set, and every quote is judged against that fixed median; but a
quote deviating by more than the hardcoded 100 bps aborts the whole
round with the PriceDeviation error (no rejected-sources list, no
consultation of config.max_deviation). -/
theorem c3_deviation_aborts_round (ps : List PriceData) (p : Int)
    (hlen : 2 ≤ ps.length)
    (hp : p ∈ ps.map (·.price))
    (hm : medianOfPrices (ps.map (·.price)) ≠ 0)
    (hd : 100 < Int.tdiv
      ((Int.natAbs (p - medianOfPrices (ps.map (·.price))) : Int) * 10000)
      (medianOfPrices (ps.map (·.price)))) :
    validate_price_consensus ps = .err .PriceDeviation := by
  unfold validate_price_consensus consensusPrices
  have hlen' : ¬ (ps.map (·.price)).length < 2 := by
    rw [List.length_map]
    omega
  rw [if_neg hlen']
  exact checkDeviations_mem_err hm
    (((List.perm_insertionSort (· ≤ ·) (ps.map (·.price))).mem_iff).2 hp) hd

/-- C3 witness: the amended theorem applied at prices 10000, 10010,
11000 with the deviating quote 11000. -/
theorem c3_deviation_aborts_round_witness :
    validate_price_consensus
      [⟨10000, 0, 0, 0, .Internal⟩, ⟨10010, 0, 0, 0, .Internal⟩,
       ⟨11000, 0, 0, 0, .Internal⟩] = .err .PriceDeviation :=
  c3_deviation_aborts_round
    [⟨10000, 0, 0, 0, .Internal⟩, ⟨10010, 0, 0, 0, .Internal⟩,
     ⟨11000, 0, 0, 0, .Internal⟩]
    11000 (by decide) (by decide) (by decide) (by decide)

/-- C4 counterexample: the quotes (price 1, expo 0) and (price 100,
expo -2) denote the same value, and after the spec's common-scale
normalization the consensus would accept them with median 100; the code
instead compares the raw mantissas 1 and 100 and aborts with
PriceDeviation, so no rescaling to the minimum exponent happens before
comparison. -/
theorem c4_counterexample :
    validate_price_consensus
      [⟨1, 0, 0, 0, .Internal⟩, ⟨100, 0, -2, 0, .Internal⟩] =
        .err .PriceDeviation
    ∧ validate_price_consensus
        (specCommonScale [⟨1, 0, 0, 0, .Internal⟩, ⟨100, 0, -2, 0, .Internal⟩]) =
        .ok 100 := by
  refine ⟨by decide, by decide⟩

/-- C4 (amended): `validate_price_consensus` performs no exponent
normalization at all: its result is invariant under arbitrary rewrites
of every quote's expo field, because only the raw price mantissas are
ever read. -/
theorem c4_expo_ignored (ps : List PriceData) (f : PriceData → Int) :
    validate_price_consensus (ps.map fun q => { q with expo := f q }) =
      validate_price_consensus ps := by
  unfold validate_price_consensus
  rw [List.map_map]
  rfl

/-- C5: with config.max_confidence = 100 ("basis points" per the field's
own comment at lib.rs line 126), a pyth quote with price 1 and
confidence 50 has a confidence ratio of 500000 bps, far above 100, yet
`get_pyth_price` ACCEPTS it: the gate at lib.rs line 27 compares the raw
confidence against max_confidence as an absolute bound
(`conf <= max_confidence as i64`) and never multiplies by 10000 or by
the price.  This theorem evaluates the code at that failing input and
records the violated ratio condition. -/
theorem c5_confidence_absolute_not_ratio :
    get_pyth_price (some ⟨1, 50, 0, 0⟩) 0 ⟨100, 100, 100⟩ =
      .ok ⟨1, 50, 0, 0, .Pyth⟩
    ∧ (50 : Int) * 10000 > 100 * |(1 : Int)| := by
  refine ⟨by rfl, by decide⟩

/-- C6 counterexample: the claim makes the quorum threshold the
configurable per-symbol value config.min_sources (any value at least 2);
instantiating it at the permitted value 3, a two-quote set should yield
an insufficient-sources failure, but the code accepts it: the threshold
is the hardcoded constant 2 at lib.rs line 66, and no min_sources field
exists in OracleConfig. -/
theorem c6_counterexample :
    List.length
      [(⟨10000, 0, 0, 0, .Internal⟩ : PriceData), ⟨10000, 0, 0, 0, .Internal⟩] < 3
    ∧ validate_price_consensus
        [⟨10000, 0, 0, 0, .Internal⟩, ⟨10000, 0, 0, 0, .Internal⟩] = .ok 10000 := by
  refine ⟨by decide, by decide⟩

/-- C6 (amended): for every input quote set with fewer than 2 elements
(the threshold is the fixed constant 2, not a configurable min_sources),
`validate_price_consensus` fails immediately with NotEnoughSources,
before any median is computed. -/
theorem c6_hardcoded_two_sources (ps : List PriceData) (h : ps.length < 2) :
    validate_price_consensus ps = .err .NotEnoughSources := by
  unfold validate_price_consensus consensusPrices
  rw [if_pos]
  rw [List.length_map]
  exact h

/-- C6 witness: the amended theorem applied to the empty quote set. -/
theorem c6_hardcoded_two_sources_witness :
    validate_price_consensus [] = .err .NotEnoughSources :=
  c6_hardcoded_two_sources [] (by decide)

/-- C7: both read paths accept a quote whose age `now - observed_at`
equals config.max_staleness exactly and reject with PriceStale a quote
whose age is max_staleness + 1 — the staleness comparisons at lib.rs
lines 22 and 49 are non-strict, so rejection happens exactly when the
age strictly exceeds max_staleness.  (For the pyth path the confidence
gate must also pass for the boundary quote to be accepted.) -/
theorem c7_staleness_boundary (feed : PythPrice) (agg : SwitchboardAggregator)
    (cfg : OracleConfig) (now : Int)
    (hconf : feed.conf ≤ u64_as_i64 cfg.max_confidence)
    (hp : now - feed.publish_time = cfg.max_staleness)
    (hs : now - agg.latest_result.updated_at = cfg.max_staleness) :
    get_pyth_price (some feed) now cfg =
      .ok ⟨feed.price, i64_as_u64 feed.conf, feed.expo, feed.publish_time, .Pyth⟩
    ∧ get_pyth_price (some feed) (now + 1) cfg = .error .PriceStale
    ∧ get_switchboard_price agg now cfg =
        .ok ⟨agg.latest_result.value, i64_as_u64 agg.latest_result.std_dev,
             agg.latest_result.scale, agg.latest_result.updated_at, .Switchboard⟩
    ∧ get_switchboard_price agg (now + 1) cfg = .error .PriceStale := by
  unfold get_pyth_price get_switchboard_price
  refine ⟨?_, ?_, ?_, ?_⟩ <;> dsimp only
  · rw [if_pos (show now - feed.publish_time ≤ cfg.max_staleness by omega),
      if_pos hconf]
  · rw [if_neg (show ¬ now + 1 - feed.publish_time ≤ cfg.max_staleness by omega)]
  · rw [if_pos
      (show now - agg.latest_result.updated_at ≤ cfg.max_staleness by omega)]
  · rw [if_neg
      (show ¬ now + 1 - agg.latest_result.updated_at ≤ cfg.max_staleness by omega)]

/-- C7 witness: the boundary theorem applied at max_staleness = 30 with
a quote observed 30 seconds ago. -/
theorem c7_staleness_boundary_witness :
    get_pyth_price (some ⟨5, 0, 0, 0⟩) 30 ⟨30, 0, 0⟩ = .ok ⟨5, 0, 0, 0, .Pyth⟩
    ∧ get_pyth_price (some ⟨5, 0, 0, 0⟩) 31 ⟨30, 0, 0⟩ = .error .PriceStale
    ∧ get_switchboard_price ⟨⟨7, 0, 0, 0⟩⟩ 30 ⟨30, 0, 0⟩ =
        .ok ⟨7, 0, 0, 0, .Switchboard⟩
    ∧ get_switchboard_price ⟨⟨7, 0, 0, 0⟩⟩ 31 ⟨30, 0, 0⟩ = .error .PriceStale :=
  c7_staleness_boundary ⟨5, 0, 0, 0⟩ ⟨⟨7, 0, 0, 0⟩⟩ ⟨30, 0, 0⟩ 30
    (by decide) (by decide) (by decide)

/-- C10: the switchboard read path applies only the staleness gate:
for every aggregator state, clock value and config,
`get_switchboard_price` never returns ConfidenceTooHigh, no matter how
large the reported std_dev is relative to the price (lib.rs lines 43-60
contain no confidence check). -/
theorem c10_switchboard_no_confidence_gate (agg : SwitchboardAggregator)
    (now : Int) (cfg : OracleConfig) :
    get_switchboard_price agg now cfg ≠ .error .ConfidenceTooHigh := by
  unfold get_switchboard_price
  dsimp only
  split
  · simp
  · simp

end OracleChain

namespace OracleManager

/-- C8: the ingestion path parses the decimal price text through f64
(main.rs line 143), so mantissas above 2^53 are not preserved exactly:
parsing the text of 9007199254740993 = 2^53 + 1 yields 9007199254740992.
This contradicts the claim that mantissas are parsed as exact integers
with no floating-point intermediate (the same line also multiplies by
10^expo at parse time rather than deferring the exponent). -/
theorem c8_parse_precision_loss :
    f64ofNat 9007199254740993 = 9007199254740992
    ∧ (9007199254740993 : Nat) ≠ 9007199254740992 := by
  refine ⟨by decide, by decide⟩

/-- C9: inside one pass of the ingestion loop body, a price-text parse
failure, a Redis (cache) failure, and a Postgres insert (persistence)
failure each hit an `.unwrap()` and PANIC, terminating the spawned
ingestion task, instead of being counted and logged and letting the loop
proceed to the next cycle as the claim states.  (Only the HTTP fetch and
body-decode failures are survived, and even those are silently skipped,
not counted or logged.) -/
theorem c9_cycle_errors_panic :
    runCycle ⟨true, true, true, false, true, true, true, true⟩ = .panicked
    ∧ runCycle ⟨true, true, true, true, true, false, true, true⟩ = .panicked
    ∧ runCycle ⟨true, true, true, true, true, true, true, false⟩ = .panicked := by
  refine ⟨by decide, by decide, by decide⟩

end OracleManager
